import Mathlib

/-!
Verification of the SecureBank transfer core (`src/public/src/core/api.js`).

The Firestore document store is embedded as association lists keyed by
document id.  Money is modelled as `Int` (the source stores raw JS
numbers; the idealised exact arithmetic is what the spec's invariants are
about).  A Firestore client transaction is embedded as a pure body that
either fails with a business error or returns the list of staged writes
together with the value returned to the caller; `runTransaction` commits
the staged writes on success and leaves the store untouched on failure,
exactly Firestore's contract for `runTransaction`.
-/

deriving instance DecidableEq for Except

/-- An `accounts` collection document, as written by `createAccount`
(api.js 67-75) and read by `createTransfer` (balance, userId). -/
structure Account where
  userId : String
  accountType : String
  accountNumber : String
  balance : Int
  currency : String
  status : String
  createdAt : Nat
  deriving DecidableEq, Repr

/-- A `transactions` collection document (ledger entry), with the fields
set by `createTransfer` (api.js 197-221). -/
structure LedgerEntry where
  userId : String
  accountId : String
  type : String
  category : String
  amount : Int
  description : String
  relatedAccountId : String
  status : String
  createdAt : Nat
  deriving DecidableEq, Repr

/-- The Firestore state visible to the transfer core: the `accounts` and
`transactions` collections, each a list of (document id, document). -/
structure Store where
  accounts : List (String × Account)
  transactions : List (String × LedgerEntry)
  deriving DecidableEq, Repr

/-- Fetch a document by id (`transaction.get` / `getDoc`): first entry
with the given key, if any. -/
def findDoc {α : Type} : List (String × α) → String → Option α
  | [], _ => none
  | (k, v) :: rest, id => if k = id then some v else findDoc rest id

/-- `transaction.update(ref, { balance: b })`: replace the `balance` field
of the document with the given id, leaving everything else unchanged
(a no-op if the id is absent; the code only updates fetched documents). -/
def setBalanceDoc : List (String × Account) → String → Int → List (String × Account)
  | [], _, _ => []
  | (k, a) :: rest, id, b =>
    if k = id then (k, { a with balance := b }) :: rest
    else (k, a) :: setBalanceDoc rest id b

/-- `transaction.set(ref, data)`: overwrite the document with the given id
if present, otherwise append it. -/
def setDoc {α : Type} : List (String × α) → String → α → List (String × α)
  | [], k, v => [(k, v)]
  | (k0, v0) :: rest, k, v =>
    if k0 = k then (k, v) :: rest else (k0, v0) :: setDoc rest k v

/-- A write staged inside the Firestore transaction of `createTransfer`:
either a balance update on an account document or a `set` of a
transaction record. -/
inductive Write where
  | updateBalance (accountId : String) (newBalance : Int)
  | setTransactionRecord (docId : String) (entry : LedgerEntry)
  deriving DecidableEq, Repr

/-- Apply one staged write to the store. -/
def applyWrite (s : Store) : Write → Store
  | .updateBalance id b => { s with accounts := setBalanceDoc s.accounts id b }
  | .setTransactionRecord docId e =>
    { s with transactions := setDoc s.transactions docId e }

/-- Commit staged writes in order. -/
def commitWrites (s : Store) (ws : List Write) : Store := ws.foldl applyWrite s

/-- The business errors `createTransfer` can surface (api.js 231-239):
the three thrown messages, mapped by the catch block to `ApiError`s. -/
inductive ApiErr where
  | insufficientBalance
  | sourceAccountNotFound
  | destinationAccountNotFound
  deriving DecidableEq, Repr

/-- The `ApiError` code attached by the catch block of `createTransfer`. -/
def apiErrorCode : ApiErr → String
  | .insufficientBalance => "INSUFFICIENT_BALANCE"
  | .sourceAccountNotFound => "ACCOUNT_NOT_FOUND"
  | .destinationAccountNotFound => "ACCOUNT_NOT_FOUND"

/-- A JS value appearing in the object `createTransfer` returns. -/
inductive JSValue where
  | bool (b : Bool)
  | num (n : Int)
  | str (s : String)
  deriving DecidableEq, Repr

/-- The `transferData` argument of `createTransfer` (api.js 153). -/
structure TransferRequest where
  fromAccountId : String
  toAccountId : String
  amount : Int
  description : String
  userId : String
  deriving DecidableEq, Repr

/-- One character of utils.js `sanitizeInput`: the five global
single-character regex replacements, applied as a character map (the
sequential passes never re-match text introduced by an earlier pass). -/
def sanitizeChar (c : Char) : String :=
  if c = '&' then "&amp;"
  else if c = '<' then "&lt;"
  else if c = '>' then "&gt;"
  else if c = '"' then "&quot;"
  else if c = '\x27' then "&#x27;"
  else String.mk [c]

/-- Strip whitespace from both ends of a character list (JS `trim`). -/
def trimChars (l : List Char) : List Char :=
  ((l.dropWhile Char.isWhitespace).reverse.dropWhile Char.isWhitespace).reverse

/-- utils.js `sanitizeInput` on strings: HTML-escape then trim. -/
def sanitizeInput (input : String) : String :=
  String.mk (trimChars ((input.data.map (fun c => (sanitizeChar c).data)).flatten))

/-- The debit transaction record staged by `createTransfer`
(api.js 197-207). -/
def debitEntry (req : TransferRequest) (serverTs : Nat) : LedgerEntry :=
  let sanitizedDescription := sanitizeInput req.description
  { userId := req.userId
    accountId := req.fromAccountId
    type := "debit"
    category := "transfer"
    amount := req.amount
    description :=
      if sanitizedDescription = "" then "Transfer out" else sanitizedDescription
    relatedAccountId := req.toAccountId
    status := "completed"
    createdAt := serverTs }

/-- The credit transaction record staged by `createTransfer`
(api.js 211-221); its owner is the destination account's owner. -/
def creditEntry (req : TransferRequest) (toAccount : Account) (serverTs : Nat) : LedgerEntry :=
  let sanitizedDescription := sanitizeInput req.description
  { userId := toAccount.userId
    accountId := req.toAccountId
    type := "credit"
    category := "transfer"
    amount := req.amount
    description :=
      if sanitizedDescription = "" then "Transfer in" else sanitizedDescription
    relatedAccountId := req.fromAccountId
    status := "completed"
    createdAt := serverTs }

/-- The body of the `runTransaction` call in `createTransfer`
(api.js 157-228): get source, check balance, get destination, stage two
balance updates and two transaction records, and return the result
object, or throw one of the three business errors. -/
def transferTxnBody (s : Store) (req : TransferRequest) (now serverTs : Nat) :
    Except ApiErr (List Write × List (String × JSValue)) :=
  match findDoc s.accounts req.fromAccountId with
  | none => .error .sourceAccountNotFound
  | some fromAccount =>
    if fromAccount.balance < req.amount then
      .error .insufficientBalance
    else
      match findDoc s.accounts req.toAccountId with
      | none => .error .destinationAccountNotFound
      | some toAccount =>
        .ok ([Write.updateBalance req.fromAccountId (fromAccount.balance - req.amount),
              Write.updateBalance req.toAccountId (toAccount.balance + req.amount),
              Write.setTransactionRecord (toString now ++ "_debit") (debitEntry req serverTs),
              Write.setTransactionRecord (toString now ++ "_credit") (creditEntry req toAccount serverTs)],
             [("success", JSValue.bool true),
              ("newFromBalance", JSValue.num (fromAccount.balance - req.amount)),
              ("newToBalance", JSValue.num (toAccount.balance + req.amount))])

/-- Firestore `runTransaction`: on success all staged writes commit
together; on a thrown error nothing is written. -/
def runTransaction {R : Type} (s : Store)
    (body : Except ApiErr (List Write × R)) : Store × Except ApiErr R :=
  match body with
  | .error e => (s, .error e)
  | .ok (ws, r) => (commitWrites s ws, .ok r)

/-- api.js `createTransfer`: run the transfer transaction against the
store.  `now` is the value of `Date.now()` (used for the two transaction
document ids), `serverTs` the resolved `serverTimestamp()`. -/
def createTransfer (s : Store) (req : TransferRequest) (now serverTs : Nat) :
    Store × Except ApiErr (List (String × JSValue)) :=
  runTransaction s (transferTxnBody s req now serverTs)

/-- JS `String.prototype.padStart(n, c)`. -/
def jsPadStart (s : String) (n : Nat) (c : Char) : String :=
  String.mk (List.replicate (n - s.length) c) ++ s

/-- api.js `generateAccountNumber`: last 8 digits of `Date.now()`
followed by a 4-digit zero-padded random draw
(`Math.floor(Math.random() * 10000)`, modelled as `random % 10000`). -/
def generateAccountNumber (now random : Nat) : String :=
  (toString now).takeRight 8 ++ jsPadStart (toString (random % 10000)) 4 '0'

/-- The caller-supplied `accountData` of `createAccount`. -/
structure AccountData where
  userId : String
  accountType : String
  currency : String
  deriving DecidableEq, Repr

/-- api.js `createAccount` (the `sanitizedData` document it writes,
api.js 67-75): zero balance, active status, generated account number,
currency defaulting to "USD" when the sanitized input is empty. -/
def createAccount (accountData : AccountData) (now random serverTs : Nat) : Account :=
  { userId := accountData.userId
    accountType := sanitizeInput accountData.accountType
    accountNumber := generateAccountNumber now random
    balance := 0
    currency :=
      if sanitizeInput accountData.currency = "" then "USD"
      else sanitizeInput accountData.currency
    status := "active"
    createdAt := serverTs }

/-- A `loans` collection document, with the fields `getDashboardStats`
reads. -/
structure Loan where
  status : String
  amount : Int
  deriving DecidableEq, Repr

/-- The object `getDashboardStats` returns. -/
structure DashboardStats where
  totalBalance : Int
  totalDebt : Int
  monthlyIncome : Int
  monthlyExpenses : Int
  accountsCount : Nat
  activeLoans : Nat
  recentTransactions : List LedgerEntry
  deriving DecidableEq, Repr

/-- The all-zero statistics object returned by the catch block of
`getDashboardStats` (api.js 448-456). -/
def zeroDashboardStats : DashboardStats :=
  { totalBalance := 0
    totalDebt := 0
    monthlyIncome := 0
    monthlyExpenses := 0
    accountsCount := 0
    activeLoans := 0
    recentTransactions := [] }

/-- api.js `getDashboardStats`: the three awaited queries are passed as
`Except` results (each underlying fetch throws an `ApiError` code on
failure); any failure reaches the catch block, which logs via
`handleError` (no rethrow) and returns the zero object.  `startOfMonth`
is the month-start timestamp used for the monthly filter. -/
def getDashboardStats
    (accountsRes : Except String (List Account))
    (transactionsRes : Except String (List LedgerEntry))
    (loansRes : Except String (List Loan))
    (startOfMonth : Nat) : DashboardStats :=
  match accountsRes, transactionsRes, loansRes with
  | .ok accounts, .ok transactions, .ok loans =>
    let totalBalance := (accounts.map (fun a => a.balance)).sum
    let approvedLoans := loans.filter (fun l => l.status == "approved")
    let totalDebt := (approvedLoans.map (fun l => l.amount)).sum
    let monthlyTransactions :=
      transactions.filter (fun t => decide (startOfMonth ≤ t.createdAt))
    let income :=
      ((monthlyTransactions.filter (fun t => t.type == "credit")).map
        (fun t => t.amount)).sum
    let expenses :=
      ((monthlyTransactions.filter (fun t => t.type == "debit")).map
        (fun t => t.amount)).sum
    { totalBalance := totalBalance
      totalDebt := totalDebt
      monthlyIncome := income
      monthlyExpenses := expenses
      accountsCount := accounts.length
      activeLoans := approvedLoans.length
      recentTransactions := transactions.take 5 }
  | _, _, _ => zeroDashboardStats

/-- Sum of all account balances in the store. -/
def sumBalances (s : Store) : Int := (s.accounts.map (fun p => p.2.balance)).sum

/-- Run a sequence of transfers: each element carries the request and the
`(Date.now(), serverTimestamp)` pair of its execution; a failing transfer
leaves the store as it was. -/
def runTransfers (s : Store) : List (TransferRequest × Nat × Nat) → Store
  | [] => s
  | (req, now, ts) :: rest => runTransfers (createTransfer s req now ts).1 rest

/-! ## Store lemmas -/

theorem findDoc_setBalanceDoc_self (l : List (String × Account)) (id : String)
    (b : Int) (a : Account) (h : findDoc l id = some a) :
    findDoc (setBalanceDoc l id b) id = some { a with balance := b } := by
  induction l with
  | nil => simp [findDoc] at h
  | cons p rest ih =>
    obtain ⟨k, acc⟩ := p
    by_cases hk : k = id
    · subst hk
      simp [findDoc] at h
      simp [setBalanceDoc, findDoc, h]
    · simp only [findDoc, if_neg hk] at h
      simp only [setBalanceDoc, if_neg hk, findDoc]
      exact ih h

theorem findDoc_setBalanceDoc_ne (l : List (String × Account)) (id id' : String)
    (b : Int) (h : id' ≠ id) :
    findDoc (setBalanceDoc l id b) id' = findDoc l id' := by
  induction l with
  | nil => rfl
  | cons p rest ih =>
    obtain ⟨k, acc⟩ := p
    by_cases hk : k = id
    · subst hk
      have hk' : k ≠ id' := fun hh => h hh.symm
      simp only [setBalanceDoc, if_pos rfl, findDoc, if_neg hk']
    · simp only [setBalanceDoc, if_neg hk, findDoc]
      by_cases hk2 : k = id'
      · simp only [if_pos hk2]
      · simp only [if_neg hk2]
        exact ih

theorem sum_setBalanceDoc (l : List (String × Account)) (id : String)
    (b : Int) (a : Account) (h : findDoc l id = some a) :
    ((setBalanceDoc l id b).map (fun p => p.2.balance)).sum
      = (l.map (fun p => p.2.balance)).sum - a.balance + b := by
  induction l with
  | nil => simp [findDoc] at h
  | cons p rest ih =>
    obtain ⟨k, acc⟩ := p
    by_cases hk : k = id
    · subst hk
      simp [findDoc] at h
      subst h
      simp [setBalanceDoc, List.sum_cons]
      omega
    · simp only [findDoc, if_neg hk] at h
      simp only [setBalanceDoc, if_neg hk, List.map_cons, List.sum_cons, ih h]
      omega

theorem setBalanceDoc_nonneg (l : List (String × Account)) (id : String) (b : Int)
    (h0 : ∀ p ∈ l, 0 ≤ p.2.balance) (hb : 0 ≤ b) :
    ∀ p ∈ setBalanceDoc l id b, 0 ≤ p.2.balance := by
  induction l with
  | nil => simp [setBalanceDoc]
  | cons p rest ih =>
    obtain ⟨k, acc⟩ := p
    by_cases hk : k = id
    · simp only [setBalanceDoc, if_pos hk]
      intro q hq
      rcases List.mem_cons.mp hq with hq | hq
      · subst hq; exact hb
      · exact h0 q (List.mem_cons_of_mem _ hq)
    · simp only [setBalanceDoc, if_neg hk]
      intro q hq
      rcases List.mem_cons.mp hq with hq | hq
      · subst hq; exact h0 (k, acc) (List.mem_cons_self _ _)
      · exact ih (fun r hr => h0 r (List.mem_cons_of_mem _ hr)) q hq

theorem findDoc_mem (l : List (String × α)) (id : String) (a : α)
    (h : findDoc l id = some a) : (id, a) ∈ l := by
  induction l with
  | nil => simp [findDoc] at h
  | cons p rest ih =>
    obtain ⟨k, v⟩ := p
    by_cases hk : k = id
    · subst hk
      simp [findDoc] at h
      subst h
      exact List.mem_cons_self _ _
    · simp only [findDoc, if_neg hk] at h
      exact List.mem_cons_of_mem _ (ih h)

theorem findDoc_setDoc_self (l : List (String × α)) (k : String) (v : α) :
    findDoc (setDoc l k v) k = some v := by
  induction l with
  | nil => simp [setDoc, findDoc]
  | cons p rest ih =>
    obtain ⟨k0, v0⟩ := p
    by_cases hk : k0 = k
    · simp [setDoc, if_pos hk, findDoc]
    · simp only [setDoc, if_neg hk, findDoc, if_neg hk]
      exact ih

theorem findDoc_setDoc_ne (l : List (String × α)) (k k' : String) (v : α)
    (h : k' ≠ k) : findDoc (setDoc l k v) k' = findDoc l k' := by
  induction l with
  | nil =>
    have : k ≠ k' := fun hh => h hh.symm
    simp [setDoc, findDoc, if_neg this]
  | cons p rest ih =>
    obtain ⟨k0, v0⟩ := p
    by_cases hk : k0 = k
    · subst hk
      have hk' : k0 ≠ k' := fun hh => h hh.symm
      simp only [setDoc, if_pos rfl, findDoc, if_neg hk']
    · simp only [setDoc, if_neg hk, findDoc]
      by_cases hk2 : k0 = k'
      · simp only [if_pos hk2]
      · simp only [if_neg hk2]
        exact ih

theorem length_setDoc_fresh (l : List (String × α)) (k : String) (v : α)
    (h : findDoc l k = none) : (setDoc l k v).length = l.length + 1 := by
  induction l with
  | nil => rfl
  | cons p rest ih =>
    obtain ⟨k0, v0⟩ := p
    by_cases hk : k0 = k
    · simp only [findDoc, if_pos hk] at h
      simp at h
    · simp only [findDoc, if_neg hk] at h
      simp only [setDoc, if_neg hk, List.length_cons, ih h]

/-! ## Unfolding the successful transfer -/

theorem createTransfer_ok_unfold (s : Store) (req : TransferRequest)
    (now serverTs : Nat) (fa ta : Account)
    (hf : findDoc s.accounts req.fromAccountId = some fa)
    (hbal : ¬ fa.balance < req.amount)
    (ht : findDoc s.accounts req.toAccountId = some ta) :
    createTransfer s req now serverTs =
      ({ accounts :=
           setBalanceDoc (setBalanceDoc s.accounts req.fromAccountId (fa.balance - req.amount))
             req.toAccountId (ta.balance + req.amount)
         transactions :=
           setDoc (setDoc s.transactions (toString now ++ "_debit") (debitEntry req serverTs))
             (toString now ++ "_credit") (creditEntry req ta serverTs) },
       Except.ok [("success", JSValue.bool true),
                  ("newFromBalance", JSValue.num (fa.balance - req.amount)),
                  ("newToBalance", JSValue.num (ta.balance + req.amount))]) := by
  simp only [createTransfer, transferTxnBody, hf, ht, if_neg hbal, runTransaction,
    commitWrites, List.foldl, applyWrite]

theorem createTransfer_error_unfold (s : Store) (req : TransferRequest)
    (now serverTs : Nat) (e : ApiErr)
    (h : transferTxnBody s req now serverTs = Except.error e) :
    createTransfer s req now serverTs = (s, Except.error e) := by
  simp only [createTransfer, runTransaction, h]

/-! ## Concrete fixtures -/

/-- Account "A": owner userA, balance 100. -/
def acctA : Account :=
  { userId := "userA", accountType := "checking", accountNumber := "00000001"
    balance := 100, currency := "USD", status := "active", createdAt := 0 }

/-- Account "B": owner userB, balance 0. -/
def acctB : Account :=
  { userId := "userB", accountType := "savings", accountNumber := "00000002"
    balance := 0, currency := "USD", status := "active", createdAt := 0 }

/-- A store holding accounts "A" and "B" and an empty ledger. -/
def demoStore : Store :=
  { accounts := [("A", acctA), ("B", acctB)], transactions := [] }

/-- Transfer 40 from "A" to "B". -/
def demoReq : TransferRequest :=
  { fromAccountId := "A", toAccountId := "B", amount := 40
    description := "rent", userId := "userA" }

/-- Transfer with a negative amount from "A" to "B". -/
def negReq : TransferRequest :=
  { fromAccountId := "A", toAccountId := "B", amount := -5
    description := "", userId := "userA" }

/-- Same-account transfer: 10 from "A" to "A". -/
def sameReq : TransferRequest :=
  { fromAccountId := "A", toAccountId := "A", amount := 10
    description := "", userId := "userA" }

/-- Transfer 50 from "B" (balance 0) to the absent account "ghost". -/
def ghostPoorReq : TransferRequest :=
  { fromAccountId := "B", toAccountId := "ghost", amount := 50
    description := "", userId := "userB" }

/-- Transfer 40 from "A" (balance 100) to the absent account "ghost". -/
def ghostRichReq : TransferRequest :=
  { fromAccountId := "A", toAccountId := "ghost", amount := 40
    description := "", userId := "userA" }

/-- A second transfer, 5 from "A" to "B", submitted in the same
millisecond (`Date.now() = 7`) as `demoReq`. -/
def secondReq : TransferRequest :=
  { fromAccountId := "A", toAccountId := "B", amount := 5
    description := "second", userId := "userA" }

/-- The store after running `demoReq` at `Date.now() = 7`. -/
def storeAfterFirst : Store := (createTransfer demoStore demoReq 7 7).1

/-- The store after then running `secondReq`, also at `Date.now() = 7`. -/
def storeAfterSecond : Store := (createTransfer storeAfterFirst secondReq 7 7).1

/-! ## Claim theorems -/

/-- C1: for every transfer that completes successfully against two
distinct accounts present in the store, the returned `newFromBalance`
is the source's prior balance minus the amount, the returned
`newToBalance` is the destination's prior balance plus the amount, the
committed balances equal these same values, and the sum of all account
balances in the store is unchanged. -/
theorem createTransfer_conservation (s : Store) (req : TransferRequest)
    (now serverTs : Nat) (fa ta : Account)
    (hne : req.fromAccountId ≠ req.toAccountId)
    (hf : findDoc s.accounts req.fromAccountId = some fa)
    (ht : findDoc s.accounts req.toAccountId = some ta)
    (hbal : ¬ fa.balance < req.amount) :
    ∃ s' ret, createTransfer s req now serverTs = (s', Except.ok ret) ∧
      List.lookup "newFromBalance" ret = some (JSValue.num (fa.balance - req.amount)) ∧
      List.lookup "newToBalance" ret = some (JSValue.num (ta.balance + req.amount)) ∧
      findDoc s'.accounts req.fromAccountId
        = some { fa with balance := fa.balance - req.amount } ∧
      findDoc s'.accounts req.toAccountId
        = some { ta with balance := ta.balance + req.amount } ∧
      sumBalances s' = sumBalances s := by
  refine ⟨_, _, createTransfer_ok_unfold s req now serverTs fa ta hf hbal ht,
    ?_, ?_, ?_, ?_, ?_⟩
  · simp [List.lookup]
  · simp [List.lookup]
  · show findDoc (setBalanceDoc _ req.toAccountId _) _ = _
    rw [findDoc_setBalanceDoc_ne _ _ _ _ hne]
    exact findDoc_setBalanceDoc_self _ _ _ _ hf
  · apply findDoc_setBalanceDoc_self
    rw [findDoc_setBalanceDoc_ne _ _ _ _ (Ne.symm hne)]
    exact ht
  · show sumBalances _ = sumBalances s
    unfold sumBalances
    rw [sum_setBalanceDoc _ _ _ ta
      (by rw [findDoc_setBalanceDoc_ne _ _ _ _ (Ne.symm hne)]; exact ht)]
    rw [sum_setBalanceDoc _ _ _ fa hf]
    omega

/-- Witness for C1: transferring 40 from "A" (balance 100) to "B"
(balance 0) conserves the total balance. -/
theorem createTransfer_conservation_witness :
    demoReq.fromAccountId ≠ demoReq.toAccountId ∧
    findDoc demoStore.accounts demoReq.fromAccountId = some acctA ∧
    findDoc demoStore.accounts demoReq.toAccountId = some acctB ∧
    ¬ acctA.balance < demoReq.amount ∧
    (∃ s' ret, createTransfer demoStore demoReq 7 7 = (s', Except.ok ret) ∧
      List.lookup "newFromBalance" ret = some (JSValue.num (acctA.balance - demoReq.amount)) ∧
      List.lookup "newToBalance" ret = some (JSValue.num (acctB.balance + demoReq.amount)) ∧
      findDoc s'.accounts demoReq.fromAccountId
        = some { acctA with balance := acctA.balance - demoReq.amount } ∧
      findDoc s'.accounts demoReq.toAccountId
        = some { acctB with balance := acctB.balance + demoReq.amount } ∧
      sumBalances s' = sumBalances demoStore) :=
  ⟨by decide, by decide, by decide, by decide,
    createTransfer_conservation demoStore demoReq 7 7 acctA acctB
      (by decide) (by decide) (by decide) (by decide)⟩

/-- C2: whenever `createTransfer` fails (insufficient balance, source
account absent, or destination account absent), the store is left
untouched — in particular no account balance changes and no ledger
entry is created. -/
theorem createTransfer_failure_leaves_store (s : Store) (req : TransferRequest)
    (now serverTs : Nat) (e : ApiErr)
    (herr : (createTransfer s req now serverTs).2 = Except.error e) :
    (createTransfer s req now serverTs).1 = s := by
  cases h : transferTxnBody s req now serverTs with
  | error e' => rw [createTransfer_error_unfold s req now serverTs e' h]
  | ok p =>
    obtain ⟨ws, r⟩ := p
    simp only [createTransfer, runTransaction, h] at herr
    exact absurd herr (by simp)

/-- Witness for C2: the transfer of 50 from "B" (balance 0) fails with
insufficient balance and leaves the store exactly as it was. -/
theorem createTransfer_failure_leaves_store_witness :
    (createTransfer demoStore ghostPoorReq 7 7).2
      = Except.error ApiErr.insufficientBalance ∧
    (createTransfer demoStore ghostPoorReq 7 7).1 = demoStore :=
  ⟨by decide,
    createTransfer_failure_leaves_store demoStore ghostPoorReq 7 7
      ApiErr.insufficientBalance (by decide)⟩

/-- C3 counterexample: `createTransfer` performs no InvalidRequest
validation.  A same-account transfer (10 from "A" to "A") and a
negative-amount transfer (-5 from "A" to "B") both complete
successfully — the same-account transfer even commits a balance of 110,
creating money — instead of failing before touching the store. -/
theorem createTransfer_no_invalid_request_rejection_cx :
    sameReq.fromAccountId = sameReq.toAccountId ∧
    negReq.amount ≤ 0 ∧
    (createTransfer demoStore sameReq 7 7).2 =
      Except.ok [("success", JSValue.bool true),
                 ("newFromBalance", JSValue.num 90),
                 ("newToBalance", JSValue.num 110)] ∧
    findDoc (createTransfer demoStore sameReq 7 7).1.accounts "A"
      = some { acctA with balance := 110 } ∧
    (createTransfer demoStore negReq 7 7).2 =
      Except.ok [("success", JSValue.bool true),
                 ("newFromBalance", JSValue.num 105),
                 ("newToBalance", JSValue.num (-5))] := by decide

/-- C3 amended: `createTransfer` itself performs no InvalidRequest
validation; a request with a non-positive amount or with equal source
and destination ids is processed normally (subject only to the
source-existence, balance, and destination-existence checks) and
succeeds.  Non-positive amounts and same-account transfers are rejected
only by the caller layer (`handleTransfer`), not by the engine. -/
theorem createTransfer_accepts_invalid_requests (s : Store)
    (req : TransferRequest) (now serverTs : Nat) (fa ta : Account)
    (_hinv : req.amount ≤ 0 ∨ req.fromAccountId = req.toAccountId)
    (hf : findDoc s.accounts req.fromAccountId = some fa)
    (ht : findDoc s.accounts req.toAccountId = some ta)
    (hbal : ¬ fa.balance < req.amount) :
    ∃ s' ret, createTransfer s req now serverTs = (s', Except.ok ret) :=
  ⟨_, _, createTransfer_ok_unfold s req now serverTs fa ta hf hbal ht⟩

/-- Witness for amended C3: the negative-amount transfer -5 from "A" to
"B" is accepted by the engine. -/
theorem createTransfer_accepts_invalid_requests_witness :
    (negReq.amount ≤ 0 ∨ negReq.fromAccountId = negReq.toAccountId) ∧
    findDoc demoStore.accounts negReq.fromAccountId = some acctA ∧
    findDoc demoStore.accounts negReq.toAccountId = some acctB ∧
    ¬ acctA.balance < negReq.amount ∧
    (∃ s' ret, createTransfer demoStore negReq 7 7 = (s', Except.ok ret)) :=
  ⟨Or.inl (by decide), by decide, by decide, by decide,
    createTransfer_accepts_invalid_requests demoStore negReq 7 7 acctA acctB
      (Or.inl (by decide)) (by decide) (by decide) (by decide)⟩

/-- C4 counterexample: the balance check precedes the
destination-existence check.  Transferring 50 from "B" (balance 0) to
the absent account "ghost" fails with InsufficientBalance, not with
AccountNotFound on the destination side. -/
theorem balance_check_precedes_destination_check_cx :
    findDoc demoStore.accounts "ghost" = none ∧
    acctB.balance < ghostPoorReq.amount ∧
    (createTransfer demoStore ghostPoorReq 7 7).2
      = Except.error ApiErr.insufficientBalance ∧
    (createTransfer demoStore ghostPoorReq 7 7).2
      ≠ Except.error ApiErr.destinationAccountNotFound := by decide

/-- C4 amended: the balance check precedes the destination-existence
check.  A transfer whose destination is absent fails with AccountNotFound
on the destination side only when the source balance covers the amount
(otherwise it fails with InsufficientBalance); in that case the store,
and in particular the source balance, is unchanged. -/
theorem destination_not_found_after_balance_check (s : Store)
    (req : TransferRequest) (now serverTs : Nat) (fa : Account)
    (hf : findDoc s.accounts req.fromAccountId = some fa)
    (hbal : ¬ fa.balance < req.amount)
    (ht : findDoc s.accounts req.toAccountId = none) :
    createTransfer s req now serverTs
      = (s, Except.error ApiErr.destinationAccountNotFound) := by
  apply createTransfer_error_unfold
  simp only [transferTxnBody, hf, ht, if_neg hbal]

/-- Witness for amended C4: transferring 40 from "A" (balance 100) to
the absent "ghost" fails with destination-side AccountNotFound and
leaves the store unchanged. -/
theorem destination_not_found_after_balance_check_witness :
    findDoc demoStore.accounts ghostRichReq.fromAccountId = some acctA ∧
    ¬ acctA.balance < ghostRichReq.amount ∧
    findDoc demoStore.accounts ghostRichReq.toAccountId = none ∧
    createTransfer demoStore ghostRichReq 7 7
      = (demoStore, Except.error ApiErr.destinationAccountNotFound) :=
  ⟨by decide, by decide, by decide,
    destination_not_found_after_balance_check demoStore ghostRichReq 7 7 acctA
      (by decide) (by decide) (by decide)⟩

/-- The debit and credit document ids of one transfer are distinct. -/
theorem debit_credit_docId_ne (now : Nat) :
    (toString now ++ "_debit") ≠ (toString now ++ "_credit") := by
  intro h
  have hd := congrArg String.data h
  simp only [String.data_append] at hd
  have hc := List.append_cancel_left hd
  exact absurd (congrArg List.length hc) (by decide)

/-- C5: every successful transfer stages exactly two ledger entries with
distinct document ids and identical timestamps: a debit on the source
account owned by the requesting user cross-referencing the destination,
and a credit on the destination account owned by the destination
account's owner cross-referencing the source; both carry the transferred
amount, category "transfer" and status "completed".  (Freshness of the
two document ids is assumed; claim C7 treats its failure.) -/
theorem createTransfer_paired_entries (s : Store) (req : TransferRequest)
    (now serverTs : Nat) (fa ta : Account)
    (hf : findDoc s.accounts req.fromAccountId = some fa)
    (ht : findDoc s.accounts req.toAccountId = some ta)
    (hbal : ¬ fa.balance < req.amount)
    (hfreshd : findDoc s.transactions (toString now ++ "_debit") = none)
    (hfreshc : findDoc s.transactions (toString now ++ "_credit") = none) :
    ∃ s' ret, createTransfer s req now serverTs = (s', Except.ok ret) ∧
      findDoc s'.transactions (toString now ++ "_debit")
        = some (debitEntry req serverTs) ∧
      findDoc s'.transactions (toString now ++ "_credit")
        = some (creditEntry req ta serverTs) ∧
      (toString now ++ "_debit") ≠ (toString now ++ "_credit") ∧
      s'.transactions.length = s.transactions.length + 2 ∧
      (debitEntry req serverTs).createdAt = (creditEntry req ta serverTs).createdAt ∧
      (debitEntry req serverTs).userId = req.userId ∧
      (debitEntry req serverTs).accountId = req.fromAccountId ∧
      (debitEntry req serverTs).type = "debit" ∧
      (debitEntry req serverTs).relatedAccountId = req.toAccountId ∧
      (debitEntry req serverTs).amount = req.amount ∧
      (debitEntry req serverTs).category = "transfer" ∧
      (debitEntry req serverTs).status = "completed" ∧
      (creditEntry req ta serverTs).userId = ta.userId ∧
      (creditEntry req ta serverTs).accountId = req.toAccountId ∧
      (creditEntry req ta serverTs).type = "credit" ∧
      (creditEntry req ta serverTs).relatedAccountId = req.fromAccountId ∧
      (creditEntry req ta serverTs).amount = req.amount ∧
      (creditEntry req ta serverTs).category = "transfer" ∧
      (creditEntry req ta serverTs).status = "completed" := by
  refine ⟨_, _, createTransfer_ok_unfold s req now serverTs fa ta hf hbal ht,
    ?_, ?_, debit_credit_docId_ne now, ?_,
    rfl, rfl, rfl, rfl, rfl, rfl, rfl, rfl, rfl, rfl, rfl, rfl, rfl, rfl, rfl⟩
  · show findDoc (setDoc _ (toString now ++ "_credit") _) _ = _
    rw [findDoc_setDoc_ne _ _ _ _ (debit_credit_docId_ne now)]
    exact findDoc_setDoc_self _ _ _
  · exact findDoc_setDoc_self _ _ _
  · show (setDoc (setDoc s.transactions _ _) _ _).length = _
    rw [length_setDoc_fresh _ _ _
      (by rw [findDoc_setDoc_ne _ _ _ _ (Ne.symm (debit_credit_docId_ne now))]
          exact hfreshc)]
    rw [length_setDoc_fresh _ _ _ hfreshd]

/-- Witness for C5: the transfer of 40 from "A" to "B" against the empty
ledger produces the debit and credit records. -/
theorem createTransfer_paired_entries_witness :
    findDoc demoStore.accounts demoReq.fromAccountId = some acctA ∧
    findDoc demoStore.accounts demoReq.toAccountId = some acctB ∧
    ¬ acctA.balance < demoReq.amount ∧
    findDoc demoStore.transactions (toString 7 ++ "_debit") = none ∧
    findDoc demoStore.transactions (toString 7 ++ "_credit") = none ∧
    (∃ s' ret, createTransfer demoStore demoReq 7 7 = (s', Except.ok ret) ∧
      findDoc s'.transactions (toString 7 ++ "_debit") = some (debitEntry demoReq 7) ∧
      findDoc s'.transactions (toString 7 ++ "_credit") = some (creditEntry demoReq acctB 7) ∧
      (toString 7 ++ "_debit") ≠ (toString 7 ++ "_credit") ∧
      s'.transactions.length = demoStore.transactions.length + 2 ∧
      (debitEntry demoReq 7).createdAt = (creditEntry demoReq acctB 7).createdAt ∧
      (debitEntry demoReq 7).userId = demoReq.userId ∧
      (debitEntry demoReq 7).accountId = demoReq.fromAccountId ∧
      (debitEntry demoReq 7).type = "debit" ∧
      (debitEntry demoReq 7).relatedAccountId = demoReq.toAccountId ∧
      (debitEntry demoReq 7).amount = demoReq.amount ∧
      (debitEntry demoReq 7).category = "transfer" ∧
      (debitEntry demoReq 7).status = "completed" ∧
      (creditEntry demoReq acctB 7).userId = acctB.userId ∧
      (creditEntry demoReq acctB 7).accountId = demoReq.toAccountId ∧
      (creditEntry demoReq acctB 7).type = "credit" ∧
      (creditEntry demoReq acctB 7).relatedAccountId = demoReq.fromAccountId ∧
      (creditEntry demoReq acctB 7).amount = demoReq.amount ∧
      (creditEntry demoReq acctB 7).category = "transfer" ∧
      (creditEntry demoReq acctB 7).status = "completed") :=
  ⟨by decide, by decide, by decide, by decide, by decide,
    createTransfer_paired_entries demoStore demoReq 7 7 acctA acctB
      (by decide) (by decide) (by decide) (by decide) (by decide)⟩

/-- One transfer step keeps all balances nonnegative when the requested
amount is nonnegative (failing transfers leave the store unchanged; a
succeeding one passed the balance check). -/
theorem createTransfer_step_nonneg (s : Store) (req : TransferRequest)
    (now serverTs : Nat)
    (h0 : ∀ p ∈ s.accounts, 0 ≤ p.2.balance) (hamt : 0 ≤ req.amount) :
    ∀ p ∈ (createTransfer s req now serverTs).1.accounts, 0 ≤ p.2.balance := by
  cases hfa : findDoc s.accounts req.fromAccountId with
  | none =>
    rw [createTransfer_error_unfold s req now serverTs ApiErr.sourceAccountNotFound
      (by simp [transferTxnBody, hfa])]
    exact h0
  | some fa =>
    by_cases hbal : fa.balance < req.amount
    · rw [createTransfer_error_unfold s req now serverTs ApiErr.insufficientBalance
        (by simp [transferTxnBody, hfa, hbal])]
      exact h0
    · cases hta : findDoc s.accounts req.toAccountId with
      | none =>
        rw [createTransfer_error_unfold s req now serverTs ApiErr.destinationAccountNotFound
          (by simp [transferTxnBody, hfa, hta, hbal])]
        exact h0
      | some ta =>
        rw [createTransfer_ok_unfold s req now serverTs fa ta hfa hbal hta]
        apply setBalanceDoc_nonneg
        · apply setBalanceDoc_nonneg _ _ _ h0
          omega
        · have h2 : 0 ≤ ta.balance := h0 _ (findDoc_mem _ _ _ hta)
          omega

/-- C6 counterexample: a transfer with a negative amount passes the
balance check (`fromAccount.balance < amount` is false) yet drives the
destination balance negative: transferring -5 from "A" (balance 100) to
"B" (balance 0) succeeds and leaves "B" at -5. -/
theorem negative_transfer_breaks_nonnegativity_cx :
    0 ≤ acctA.balance ∧ 0 ≤ acctB.balance ∧
    negReq.amount < 0 ∧
    ¬ acctA.balance < negReq.amount ∧
    (createTransfer demoStore negReq 7 7).2 =
      Except.ok [("success", JSValue.bool true),
                 ("newFromBalance", JSValue.num 105),
                 ("newToBalance", JSValue.num (-5))] ∧
    findDoc (createTransfer demoStore negReq 7 7).1.accounts "B"
      = some { acctB with balance := -5 } ∧
    ({ acctB with balance := -5 } : Account).balance < 0 := by decide

/-- C6 amended: starting from a store in which every balance is at least
0, after any finite sequence of transfers with nonnegative amounts
(each failing transfer leaving the store unchanged and each succeeding
one having passed the balance check), every balance remains at least 0.
The restriction to nonnegative amounts is forced: a negative-amount
request also passes the balance check but can drive the destination
negative. -/
theorem runTransfers_preserve_nonnegativity (s : Store)
    (reqs : List (TransferRequest × Nat × Nat))
    (h0 : ∀ p ∈ s.accounts, 0 ≤ p.2.balance)
    (hpos : ∀ r ∈ reqs, 0 ≤ r.1.amount) :
    ∀ p ∈ (runTransfers s reqs).accounts, 0 ≤ p.2.balance := by
  induction reqs generalizing s with
  | nil => exact h0
  | cons r rest ih =>
    obtain ⟨req, now, ts⟩ := r
    simp only [runTransfers]
    exact ih _
      (createTransfer_step_nonneg s req now ts h0 (hpos _ (List.mem_cons_self _ _)))
      (fun r hr => hpos r (List.mem_cons_of_mem _ hr))

/-- Witness for amended C6: two successive transfers keep all balances
nonnegative. -/
theorem runTransfers_preserve_nonnegativity_witness :
    (∀ p ∈ demoStore.accounts, 0 ≤ p.2.balance) ∧
    (∀ r ∈ [(demoReq, 7, 7), (secondReq, 8, 8)], 0 ≤ r.1.amount) ∧
    (∀ p ∈ (runTransfers demoStore [(demoReq, 7, 7), (secondReq, 8, 8)]).accounts,
      0 ≤ p.2.balance) :=
  ⟨by decide, by decide,
    runTransfers_preserve_nonnegativity demoStore [(demoReq, 7, 7), (secondReq, 8, 8)]
      (by decide) (by decide)⟩

/-- C7: ledger-entry document ids are derived solely from `Date.now()`
(`api.js` 196, 210), so a second transfer executed in the same
millisecond as a first writes its two entries to the SAME document ids,
and `transaction.set` silently replaces the first transfer's entries:
after transferring 40 from "A" to "B" and then 5 from "A" to "B", both
at `Date.now() = 7`, the ledger still holds only two entries and
"7_debit" holds the second transfer's record, the first one being lost —
contradicting append-only immutability of ledger entries. -/
theorem same_millisecond_transfer_overwrites_entry :
    findDoc storeAfterFirst.transactions "7_debit" = some (debitEntry demoReq 7) ∧
    findDoc storeAfterFirst.transactions "7_credit" = some (creditEntry demoReq acctB 7) ∧
    storeAfterFirst.transactions.length = 2 ∧
    findDoc storeAfterSecond.transactions "7_debit" = some (debitEntry secondReq 7) ∧
    debitEntry secondReq 7 ≠ debitEntry demoReq 7 ∧
    storeAfterSecond.transactions.length = 2 := by decide

/-- C8 counterexample: the object returned by a successful transfer has
keys "success", "newFromBalance" and "newToBalance" only — it carries no
"transferId". -/
theorem transfer_result_lacks_transferId_cx :
    (createTransfer demoStore demoReq 7 7).2 =
      Except.ok [("success", JSValue.bool true),
                 ("newFromBalance", JSValue.num 60),
                 ("newToBalance", JSValue.num 40)] ∧
    List.lookup "transferId"
      [(("success" : String), JSValue.bool true),
       ("newFromBalance", JSValue.num 60),
       ("newToBalance", JSValue.num 40)] = none := by decide

/-- C8 amended: on every successful transfer `createTransfer` returns an
object holding `success = true`, the new source balance and the new
destination balance — and nothing else; in particular no transferId
identifying the transfer is returned. -/
theorem createTransfer_success_return_shape (s : Store) (req : TransferRequest)
    (now serverTs : Nat) (fa ta : Account)
    (hf : findDoc s.accounts req.fromAccountId = some fa)
    (ht : findDoc s.accounts req.toAccountId = some ta)
    (hbal : ¬ fa.balance < req.amount) :
    ∃ s' ret, createTransfer s req now serverTs = (s', Except.ok ret) ∧
      ret = [("success", JSValue.bool true),
             ("newFromBalance", JSValue.num (fa.balance - req.amount)),
             ("newToBalance", JSValue.num (ta.balance + req.amount))] ∧
      List.lookup "transferId" ret = none := by
  refine ⟨_, _, createTransfer_ok_unfold s req now serverTs fa ta hf hbal ht, rfl, ?_⟩
  simp [List.lookup]

/-- Witness for amended C8. -/
theorem createTransfer_success_return_shape_witness :
    findDoc demoStore.accounts demoReq.fromAccountId = some acctA ∧
    findDoc demoStore.accounts demoReq.toAccountId = some acctB ∧
    ¬ acctA.balance < demoReq.amount ∧
    (∃ s' ret, createTransfer demoStore demoReq 7 7 = (s', Except.ok ret) ∧
      ret = [("success", JSValue.bool true),
             ("newFromBalance", JSValue.num (acctA.balance - demoReq.amount)),
             ("newToBalance", JSValue.num (acctB.balance + demoReq.amount))] ∧
      List.lookup "transferId" ret = none) :=
  ⟨by decide, by decide, by decide,
    createTransfer_success_return_shape demoStore demoReq 7 7 acctA acctB
      (by decide) (by decide) (by decide)⟩

/-- Account data for registration of user "u1". -/
def dataA : AccountData :=
  { userId := "u1", accountType := "checking", currency := "USD" }

/-- Account data for registration of user "u2". -/
def dataB : AccountData :=
  { userId := "u2", accountType := "savings", currency := "USD" }

/-- C9 counterexample: account numbers are generated from the
millisecond timestamp and a random draw with no uniqueness check, so two
distinct account creations sharing both values receive identical account
numbers. -/
theorem accountNumber_collision_cx :
    dataA ≠ dataB ∧
    (createAccount dataA 1700000000005 42 0).accountNumber
      = (createAccount dataB 1700000000005 42 1).accountNumber := by decide

/-- C9 amended: every account created through `createAccount` starts
with balance exactly 0 and status "active", and its account number is
`generateAccountNumber` applied to the creation timestamp and the random
draw; the number is NOT guaranteed unique within the store — creations
sharing the same `Date.now()` value and random draw collide. -/
theorem createAccount_zero_balance_active (d : AccountData)
    (now random serverTs : Nat) :
    (createAccount d now random serverTs).balance = 0 ∧
    (createAccount d now random serverTs).status = "active" ∧
    (createAccount d now random serverTs).accountNumber
      = generateAccountNumber now random :=
  ⟨rfl, rfl, rfl⟩

/-- C10: `getDashboardStats` never propagates a failure of the
underlying accounts, transactions or loans queries: whenever any of the
three results is an error, it returns the statistics object with every
total zero and an empty recent-transactions list. -/
theorem getDashboardStats_error_fallback
    (accountsRes : Except String (List Account))
    (transactionsRes : Except String (List LedgerEntry))
    (loansRes : Except String (List Loan)) (startOfMonth : Nat)
    (herr : accountsRes.isOk = false ∨ transactionsRes.isOk = false ∨
      loansRes.isOk = false) :
    getDashboardStats accountsRes transactionsRes loansRes startOfMonth
      = zeroDashboardStats ∧
    (getDashboardStats accountsRes transactionsRes loansRes startOfMonth).totalBalance = 0 ∧
    (getDashboardStats accountsRes transactionsRes loansRes startOfMonth).totalDebt = 0 ∧
    (getDashboardStats accountsRes transactionsRes loansRes startOfMonth).monthlyIncome = 0 ∧
    (getDashboardStats accountsRes transactionsRes loansRes startOfMonth).monthlyExpenses = 0 ∧
    (getDashboardStats accountsRes transactionsRes loansRes startOfMonth).recentTransactions
      = [] := by
  cases accountsRes <;> cases transactionsRes <;> cases loansRes <;>
    first
      | exact ⟨rfl, rfl, rfl, rfl, rfl, rfl⟩
      | simp [Except.isOk, Except.toBool] at herr

/-- Witness for C10: a failing accounts query yields the zero object. -/
theorem getDashboardStats_error_fallback_witness :
    ((Except.error "FETCH_ACCOUNTS_ERROR" : Except String (List Account)).isOk = false ∨
     (Except.ok [] : Except String (List LedgerEntry)).isOk = false ∨
     (Except.ok [] : Except String (List Loan)).isOk = false) ∧
    (getDashboardStats (Except.error "FETCH_ACCOUNTS_ERROR") (Except.ok [])
        (Except.ok []) 0 = zeroDashboardStats ∧
     (getDashboardStats (Except.error "FETCH_ACCOUNTS_ERROR") (Except.ok [])
        (Except.ok []) 0).totalBalance = 0 ∧
     (getDashboardStats (Except.error "FETCH_ACCOUNTS_ERROR") (Except.ok [])
        (Except.ok []) 0).totalDebt = 0 ∧
     (getDashboardStats (Except.error "FETCH_ACCOUNTS_ERROR") (Except.ok [])
        (Except.ok []) 0).monthlyIncome = 0 ∧
     (getDashboardStats (Except.error "FETCH_ACCOUNTS_ERROR") (Except.ok [])
        (Except.ok []) 0).monthlyExpenses = 0 ∧
     (getDashboardStats (Except.error "FETCH_ACCOUNTS_ERROR") (Except.ok [])
        (Except.ok []) 0).recentTransactions = []) :=
  ⟨Or.inl (by decide),
    getDashboardStats_error_fallback (Except.error "FETCH_ACCOUNTS_ERROR")
      (Except.ok []) (Except.ok []) 0 (Or.inl (by decide))⟩
